import Mathlib

/-!
Verification of the triple RPC client (dubbogo "Triple" protocol engine):
a shallow embedding of the configuration defaulting logic
(pkg/config/config.go), the client facade (TripleClient) and the user
stream adapters (baseUserStream / clientUserStream), together with proofs
of the specification's claims about them.

Go side effects are made explicit: logging becomes a list of logged
messages, the network becomes a list of performed unary calls, mutation
becomes state passing, and Go panics become an Option-valued result.
-/

namespace Triple

/-- Modelled from the spec: the constants package (pkg/common/constant) is
not under src/. The spec fixes the default protocol identifier to "tri";
the default timeout is a fixed non-zero duration. -/
def DefaultTimeout : Nat := 3

/-- Modelled from the spec: default read-buffer size, a fixed non-zero
byte count (constant package not under src/). -/
def DefaultHttp2ControllerReadBufferSize : Nat := 1000000

/-- Modelled from the spec: default listening/target address, a fixed
loopback address (constant package not under src/). -/
def DefaultListeningAddress : String := "127.0.0.1:20000"

/-- Modelled from the spec: the protocol identifier constant, fixed by the
spec to "tri" (constant package not under src/). -/
def TRIPLE : String := "tri"

/-- Modelled from the spec: the structured/schema (protobuf) serializer
type identifier (constant package not under src/). -/
def PBSerializerName : String := "protobuf"

/-- Modelled from the spec: the dynamic/object-graph (Hessian) serializer
type identifier (constant package not under src/). -/
def TripleHessianWrapperSerializerName : String := "triple-hessian-wrapper"

/-- Modelled from the spec: the well-known per-call context key under
which the declared interface key is carried (constant package not under
src/). -/
def InterfaceKey : String := "triple_interface_key"

/-- Modelled from the spec: a logger handle (pkg/common/logger is not
under src/); only nil-ness and identity matter to the claims. -/
structure Logger where
  name : String
deriving DecidableEq

/-- Modelled from the spec: the built-in logger returned by
default_logger.GetDefaultLogger (not under src/). -/
def GetDefaultLogger : Logger := { name := "default" }

/-- Embedding of Go struct config.Option (src/pkg/config/config.go).
uint32 fields become Nat, the nil-able Logger interface becomes an
Option, string-typed constant.TripleSerializerName becomes String. -/
structure ConfigOption where
  Timeout : Nat
  BufferSize : Nat
  Location : String
  Protocol : String
  SerializerType : String
  HeaderGroup : String
  HeaderAppVersion : String
  Logger : Option Logger
deriving DecidableEq

/-- Embedding of the first statement of Validate
(src/pkg/config/config.go:47-49): default the timeout when zero. -/
def ConfigOption.validateTimeout (o : ConfigOption) : ConfigOption :=
  if o.Timeout = 0 then { o with Timeout := DefaultTimeout } else o

/-- Embedding of the second statement of Validate
(src/pkg/config/config.go:51-53): default the buffer size when zero. -/
def ConfigOption.validateBufferSize (o : ConfigOption) : ConfigOption :=
  if o.BufferSize = 0 then
    { o with BufferSize := DefaultHttp2ControllerReadBufferSize } else o

/-- Embedding of the third statement of Validate
(src/pkg/config/config.go:55-57): default the location when empty. -/
def ConfigOption.validateLocation (o : ConfigOption) : ConfigOption :=
  if o.Location = "" then { o with Location := DefaultListeningAddress } else o

/-- Embedding of the fourth statement of Validate
(src/pkg/config/config.go:59-61): default the logger when nil. -/
def ConfigOption.validateLogger (o : ConfigOption) : ConfigOption :=
  if o.Logger = none then { o with Logger := some GetDefaultLogger } else o

/-- Embedding of the fifth statement of Validate
(src/pkg/config/config.go:63-65): default the protocol when empty. -/
def ConfigOption.validateProtocol (o : ConfigOption) : ConfigOption :=
  if o.Protocol = "" then { o with Protocol := TRIPLE } else o

/-- Embedding of the sixth statement of Validate
(src/pkg/config/config.go:67-69): default the serializer type when
empty. -/
def ConfigOption.validateSerializerType (o : ConfigOption) : ConfigOption :=
  if o.SerializerType = "" then { o with SerializerType := PBSerializerName }
  else o

/-- Embedding of (o *Option) Validate (src/pkg/config/config.go:46-70):
the six in-place defaulting statements run in source order; the mutated
receiver becomes a returned updated record threaded through the steps. -/
def ConfigOption.Validate (o : ConfigOption) : ConfigOption :=
  o.validateTimeout.validateBufferSize.validateLocation.validateLogger.validateProtocol.validateSerializerType

/-- The all-zero-valued Option: every field unset, as produced by
NewTripleOption with no option functions. -/
def zeroOption : ConfigOption :=
  { Timeout := 0, BufferSize := 0, Location := "", Protocol := ""
    SerializerType := "", HeaderGroup := "", HeaderAppVersion := ""
    Logger := none }

/-- A per-call context, embedding the context.Context values used by the
client: a finite map from string keys to string values. -/
abbrev Ctx : Type := List (String × String)

/-- Embedding of ctx.Value(key) followed by the .(string) assertion:
none when the key is absent (the Go code would panic). -/
def ctxValue (c : Ctx) (k : String) : Option String :=
  (List.find? (fun p => p.1 = k) c).map (fun p => p.2)

/-- Embedding of the reflect.Value arguments and results flowing through
TripleClient.Invoke: the zero reflect.Value (nil-equivalent), a context
argument, an opaque application object, or an error value. -/
inductive Value where
  | zero
  | ctxV (c : List (String × String))
  | obj (s : String)
  | errV (e : String)
deriving DecidableEq

/-- Modelled from the spec: outcome of the Connection Controller's unary
invocation (H2Controller.UnaryInvoke is not under src/): the value
written into the reply out-parameter, and the returned error (none on
success). -/
structure UnaryOutcome where
  val : Value
  err : Option String

/-- Modelled from the spec: the Connection Controller (H2Controller is
not under src/): target address, availability flag, the one-shot
teardown guard state, a counter of performed teardown side effects, and
the network behaviour of unary invocation as an oracle function. -/
structure H2Controller where
  address : String
  available : Bool
  onceDone : Bool
  teardownCount : Nat
  unaryInvoke : Ctx → String → Value → UnaryOutcome

/-- Modelled from the spec: H2Controller.Destroy (not under src/) —
idempotent teardown guarded by a one-shot primitive: the first call
releases resources (counted) and makes the controller permanently
unavailable; later calls are no-ops. -/
def H2Controller.Destroy (h : H2Controller) : H2Controller :=
  if h.onceDone then h
  else { h with onceDone := true, available := false
                teardownCount := h.teardownCount + 1 }

/-- Modelled from the spec: H2Controller.IsAvailable (not under src/) —
non-blocking health check reflecting destruction. -/
def H2Controller.IsAvailable (h : H2Controller) : Bool :=
  h.available

/-- Embedding of Go struct TripleClient (src/unnamed/part_000:40-52): the
connection controller, the option, and the protobuf stub invoker; the
reflective MethodByName dispatch becomes a function from method name and
arguments to results. -/
structure TripleClient where
  h2Controller : H2Controller
  opt : ConfigOption
  stubInvoker : String → List Value → List Value

/-- Embedding of (t *TripleClient) Request (src/unnamed/part_000:120-122):
delegates the unary call to the controller. -/
def TripleClient.Request (t : TripleClient) (ctx : Ctx) (path : String)
    (arg : Value) : UnaryOutcome :=
  t.h2Controller.unaryInvoke ctx path arg

/-- Result of one Invoke call with its side effects made explicit: the
returned reflect.Value slice, the messages logged via opt.Logger, and
the unary network calls performed as (path, request body) pairs. -/
structure InvokeResult where
  rsp : List Value
  logged : List String
  networkCalls : List (String × Value)
deriving DecidableEq

/-- Embedding of (t *TripleClient) Invoke (src/unnamed/part_000:93-115):
the switch on opt.SerializerType becomes an if chain; the Hessian branch
reads in[0] as the context, looks up the interface key, builds the path,
performs Request with in[1] as body and returns (value, error) in that
order with the zero Value standing for the absent error; the default
branch logs and returns a configuration error without any network call.
none embeds the Go panics on a malformed argument slice or a missing
context key. -/
def TripleClient.Invoke (t : TripleClient) (methodName : String)
    (inVals : List Value) : Option InvokeResult :=
  if t.opt.SerializerType = PBSerializerName then
    some { rsp := t.stubInvoker methodName inVals, logged := []
           networkCalls := [] }
  else if t.opt.SerializerType = TripleHessianWrapperSerializerName then
    match inVals with
    | Value.ctxV c :: arg :: _ =>
      match ctxValue c InterfaceKey with
      | some interfaceKey =>
        let path := "/" ++ interfaceKey ++ "/" ++ methodName
        let outcome := t.Request c path arg
        some { rsp := [outcome.val] ++
                 (match outcome.err with
                  | some e => [Value.errV e]
                  | none => [Value.zero])
               logged := [], networkCalls := [(path, arg)] }
      | none => none
    | _ => none
  else
    some { rsp := [Value.zero,
             Value.errV ("Invalid triple client serializerType = "
               ++ t.opt.SerializerType)]
           logged := ["Invalid triple client serializerType = "
               ++ t.opt.SerializerType]
           networkCalls := [] }

/-- Embedding of (t *TripleClient) Close (src/unnamed/part_000:130-134):
destroys the http2 controller. -/
def TripleClient.Close (t : TripleClient) : TripleClient :=
  { t with h2Controller := t.h2Controller.Destroy }

/-- Embedding of (t *TripleClient) IsAvailable
(src/unnamed/part_000:137-139): delegates to the controller. -/
def TripleClient.IsAvailable (t : TripleClient) : Bool :=
  t.h2Controller.IsAvailable

/-- Message type tag of a frame put on the send path (internal/message is
not under src/; data vs control per the spec's frame model). -/
inductive MsgType where
  | dataMsgType
  | serverStreamCloseMsgType
deriving DecidableEq

/-- One value read from a stream's receive queue: the nil-Buffer sentinel
signalling closure, or the buffered frame bytes (message.BufferMsg is
not under src/; modelled per the spec's closed-sentinel discipline). -/
inductive RecvBuf where
  | closed
  | data (bytes : List Nat)
deriving DecidableEq

/-- Modelled from the spec: a logical Stream (the stream implementation
is not under src/): an inbound receive queue read by GetRecv and an
outbound send path appended to by PutSend. -/
structure Stream where
  recvQueue : List RecvBuf
  sendQueue : List (List Nat × MsgType)
deriving DecidableEq

/-- Modelled from the spec: the pluggable serializer interface
(common.Dubbo3Serializer is not under src/): request marshalling and
response unmarshalling, each fallible. -/
structure Dubbo3Serializer where
  marshalRequest : Value → Except String (List Nat)
  unmarshalResponse : List Nat → Except String Value

/-- Modelled from the spec: the frame codec interface
(common.PackageHandler is not under src/): payload-to-frame encoding and
frame-to-payload decoding, the latter returning data and a possible
error as the Go multi-return does. -/
structure PackageHandler where
  pkg2FrameData : List Nat → List Nat
  frame2PkgData : List Nat → List Nat × Option String

/-- Embedding of Go struct baseUserStream (src/unnamed/part_000:175-180). -/
structure BaseUserStream where
  opt : ConfigOption
  stream : Stream
  serilizer : Dubbo3Serializer
  pkgHandler : PackageHandler

/-- The stream adapter with its receive queue replaced, standing for the
receive that consumed the queue's head. -/
def BaseUserStream.withRecvQueue (ss : BaseUserStream) (q : List RecvBuf) :
    BaseUserStream :=
  { ss with stream := { ss.stream with recvQueue := q } }

/-- grpc metadata.MD: a multimap from keys to value lists. -/
abbrev MD : Type := List (String × List String)

/-- Embedding of baseUserStream.SetHeader (src/unnamed/part_000:183-185):
returns nil with no effect. -/
def BaseUserStream.SetHeader (ss : BaseUserStream) (_md : MD) :
    BaseUserStream × Option String :=
  (ss, none)

/-- Embedding of baseUserStream.SendHeader (src/unnamed/part_000:188-190):
returns nil with no effect. -/
def BaseUserStream.SendHeader (ss : BaseUserStream) (_md : MD) :
    BaseUserStream × Option String :=
  (ss, none)

/-- Embedding of baseUserStream.SetTrailer (src/unnamed/part_000:193-194):
no effect. -/
def BaseUserStream.SetTrailer (ss : BaseUserStream) (_md : MD) :
    BaseUserStream :=
  ss

/-- Embedding of baseUserStream.SendMsg (src/unnamed/part_000:202-211):
marshal the message; on failure log and return the error with the
stream untouched; on success frame the payload and put exactly one data
frame on the send path, returning nil. Result is (returned error,
logged messages, updated adapter). -/
def BaseUserStream.SendMsg (ss : BaseUserStream) (m : Value) :
    Option String × List String × BaseUserStream :=
  match ss.serilizer.marshalRequest m with
  | Except.error e => (some e, ["sen msg error with msg = "], ss)
  | Except.ok replyData =>
    let rspFrameData := ss.pkgHandler.pkg2FrameData replyData
    (none, [],
      { ss with stream := { ss.stream with
          sendQueue := ss.stream.sendQueue
            ++ [(rspFrameData, MsgType.dataMsgType)] } })

/-- Embedding of baseUserStream.RecvMsg (src/unnamed/part_000:214-225):
read one value from the receive queue (none embeds blocking on an empty
queue); the nil-Buffer sentinel yields the stream-closed error; a data
buffer is de-framed with the de-framing error discarded exactly as the
source's blank identifier does, then unmarshalled, propagating the
unmarshalling outcome. -/
def BaseUserStream.RecvMsg (ss : BaseUserStream) :
    Option (Except String Value × BaseUserStream) :=
  match ss.stream.recvQueue with
  | [] => none
  | readBuf :: rest =>
    match readBuf with
    | RecvBuf.closed =>
      some (Except.error "user stream closed!", ss.withRecvQueue rest)
    | RecvBuf.data bs =>
      let pkgData := (ss.pkgHandler.frame2PkgData bs).1
      match ss.serilizer.unmarshalResponse pkgData with
      | Except.error e => some (Except.error e, ss.withRecvQueue rest)
      | Except.ok v => some (Except.ok v, ss.withRecvQueue rest)

/-- Embedding of Go struct clientUserStream (src/unnamed/part_000:244-246):
wraps the base adapter. -/
structure ClientUserStream where
  base : BaseUserStream

/-- Embedding of clientUserStream.Header (src/unnamed/part_000:249-251):
returns (nil, nil). -/
def ClientUserStream.Header (_cs : ClientUserStream) :
    Option MD × Option String :=
  (none, none)

/-- Embedding of clientUserStream.Trailer (src/unnamed/part_000:254-256):
returns nil. -/
def ClientUserStream.Trailer (_cs : ClientUserStream) : Option MD :=
  none

/-- Embedding of clientUserStream.CloseSend (src/unnamed/part_000:259-262):
a documented todo returning nil with no effect. -/
def ClientUserStream.CloseSend (cs : ClientUserStream) :
    ClientUserStream × Option String :=
  (cs, none)

/-- An Option is filled when every field that Validate defaults is
non-zero-valued; Validate writes only non-zero defaults, so validated
options are filled. -/
def ConfigOption.Filled (o : ConfigOption) : Prop :=
  o.Timeout ≠ 0 ∧ o.BufferSize ≠ 0 ∧ o.Location ≠ "" ∧ o.Logger ≠ none
  ∧ o.Protocol ≠ "" ∧ o.SerializerType ≠ ""

/-- A concrete controller used to instantiate the theorems: fresh
(teardown not yet run), available, with a unary oracle that always
succeeds with an opaque reply object. -/
def wController : H2Controller :=
  { address := DefaultListeningAddress, available := true
    onceDone := false, teardownCount := 0
    unaryInvoke := fun _ _ _ => { val := Value.obj "reply", err := none } }

/-- A validated option configured with the Hessian serializer. -/
def wHessianOpt : ConfigOption :=
  { zeroOption with SerializerType := TripleHessianWrapperSerializerName }

/-- A concrete client configured with the Hessian serializer. -/
def wClient : TripleClient :=
  { h2Controller := wController, opt := wHessianOpt
    stubInvoker := fun _ _ => [] }

/-- A concrete client configured with an unrecognized serializer type. -/
def wBadClient : TripleClient :=
  { wClient with opt := { wHessianOpt with SerializerType := "json" } }

/-- A concrete per-call context carrying an interface key. -/
def wCtx : Ctx := [(InterfaceKey, "com.example.IGreeter")]

/-- A concrete serializer: marshalling fails on the zero value and
succeeds otherwise; unmarshalling fails on an empty payload and
succeeds otherwise. -/
def wSerializer : Dubbo3Serializer :=
  { marshalRequest := fun m =>
      match m with
      | Value.zero => Except.error "marshal boom"
      | _ => Except.ok [7]
    unmarshalResponse := fun bs =>
      match bs with
      | [] => Except.error "unmarshal boom"
      | b :: _ => Except.ok (Value.obj (toString b)) }

/-- A concrete package handler whose de-framing strips a leading tag
byte and always reports an error alongside the data. -/
def wPkgHandler : PackageHandler :=
  { pkg2FrameData := fun d => 0 :: d
    frame2PkgData := fun d => (d.drop 1, some "frame error") }

/-- A concrete stream adapter whose receive queue holds one data buffer
that de-frames to an empty payload. -/
def wRecvSS : BaseUserStream :=
  { opt := zeroOption, stream := { recvQueue := [RecvBuf.data [0]], sendQueue := [] }
    serilizer := wSerializer, pkgHandler := wPkgHandler }

/-- A concrete stream adapter whose receive queue holds one data buffer
that de-frames to a non-empty payload while the de-framing reports an
error. -/
def wRecvSS2 : BaseUserStream :=
  { wRecvSS with stream := { recvQueue := [RecvBuf.data [0, 5]], sendQueue := [] } }

/-- A concrete stream adapter with empty queues, for send-path
instantiation. -/
def wSendSS : BaseUserStream :=
  { opt := zeroOption, stream := { recvQueue := [], sendQueue := [] }
    serilizer := wSerializer, pkgHandler := wPkgHandler }

/-! ## Theorems -/

/-- Destroy is idempotent: the one-shot guard makes a second teardown a
no-op. -/
theorem H2Controller.destroy_destroy (h : H2Controller) :
    h.Destroy.Destroy = h.Destroy := by
  cases hh : h.onceDone
  · simp [H2Controller.Destroy, hh]
  · simp [H2Controller.Destroy, hh]

/-- Close is idempotent, inherited from the controller's one-shot
teardown. -/
theorem TripleClient.close_close (t : TripleClient) :
    t.Close.Close = t.Close := by
  simp [TripleClient.Close, H2Controller.destroy_destroy]

/-- Any positive number of Close calls collapses to a single Close. -/
theorem TripleClient.close_iterate (t : TripleClient) (n : Nat) (hn : 1 ≤ n) :
    TripleClient.Close^[n] t = t.Close := by
  obtain ⟨k, rfl⟩ : ∃ k, n = k + 1 := ⟨n - 1, by omega⟩
  clear hn
  induction k with
  | zero => rfl
  | succ j ih =>
    rw [Function.iterate_succ_apply', ih]
    exact TripleClient.close_close t

/-- Claim C1: calling the client's Close (destroy) more than once — the
sequential collapse of repeated or concurrent calls through the
one-shot guard — has exactly one teardown side effect (the teardown
counter rises by exactly one, so resources are not double-freed), and
after any Close the client's IsAvailable is false and stays false under
further Close calls. -/
theorem tripleClient_close_once_teardown (t : TripleClient) (n : Nat)
    (hfresh : t.h2Controller.onceDone = false) (hn : 1 ≤ n) :
    (TripleClient.Close^[n] t).h2Controller.teardownCount
        = t.h2Controller.teardownCount + 1
    ∧ (TripleClient.Close^[n] t).IsAvailable = false := by
  rw [TripleClient.close_iterate t n hn]
  constructor
  · simp [TripleClient.Close, H2Controller.Destroy, hfresh]
  · simp [TripleClient.Close, TripleClient.IsAvailable,
      H2Controller.Destroy, H2Controller.IsAvailable, hfresh]

/-- Witness for C1: three Close calls on a fresh concrete client perform
exactly one teardown and leave it unavailable. -/
theorem tripleClient_close_once_teardown_witness :
    (TripleClient.Close^[3] wClient).h2Controller.teardownCount
        = wClient.h2Controller.teardownCount + 1
    ∧ (TripleClient.Close^[3] wClient).IsAvailable = false :=
  tripleClient_close_once_teardown wClient 3 rfl (by decide)

/-- Claim C2: with the Hessian serializer configured, Invoke builds the
path "/" ++ interfaceKey ++ "/" ++ methodName from the interface key
read out of the per-call context under the well-known key, performs
exactly one unary call carrying the second argument as request body,
and returns a two-element (value, error) result in that order, the
error slot being the zero (nil-equivalent) Value on success. -/
theorem invoke_hessian_path_and_result (t : TripleClient)
    (methodName : String) (c : List (String × String)) (arg : Value)
    (rest : List Value) (ik : String)
    (hser : t.opt.SerializerType = TripleHessianWrapperSerializerName)
    (hik : ctxValue c InterfaceKey = some ik) :
    t.Invoke methodName (Value.ctxV c :: arg :: rest) =
      some { rsp := [(t.Request c ("/" ++ ik ++ "/" ++ methodName) arg).val]
               ++ (match (t.Request c ("/" ++ ik ++ "/" ++ methodName) arg).err with
                   | some e => [Value.errV e]
                   | none => [Value.zero])
             logged := []
             networkCalls := [("/" ++ ik ++ "/" ++ methodName, arg)] } := by
  have hne : TripleHessianWrapperSerializerName ≠ PBSerializerName := by decide
  unfold TripleClient.Invoke
  rw [hser, if_neg hne, if_pos rfl]
  simp [hik]

/-- Witness for C2: a concrete Hessian-configured client invoked with a
context carrying the interface key calls path
/com.example.IGreeter/SayHello with the request object. -/
theorem invoke_hessian_path_and_result_witness :
    wClient.Invoke "SayHello" [Value.ctxV wCtx, Value.obj "req"] =
      some { rsp := [(wClient.Request wCtx
                 ("/" ++ "com.example.IGreeter" ++ "/" ++ "SayHello")
                 (Value.obj "req")).val]
               ++ (match (wClient.Request wCtx
                     ("/" ++ "com.example.IGreeter" ++ "/" ++ "SayHello")
                     (Value.obj "req")).err with
                   | some e => [Value.errV e]
                   | none => [Value.zero])
             logged := []
             networkCalls := [("/" ++ "com.example.IGreeter" ++ "/" ++ "SayHello",
                Value.obj "req")] } :=
  invoke_hessian_path_and_result wClient "SayHello" wCtx (Value.obj "req")
    [] "com.example.IGreeter" rfl rfl

/-- Claim C3: with a serializer type that is neither the protobuf nor
the Hessian identifier, Invoke deterministically returns the (zero,
error) pair whose error names the offending type, logs the same
message, and performs no network call. -/
theorem invoke_unknown_serializer_fails (t : TripleClient)
    (methodName : String) (inVals : List Value)
    (h1 : t.opt.SerializerType ≠ PBSerializerName)
    (h2 : t.opt.SerializerType ≠ TripleHessianWrapperSerializerName) :
    t.Invoke methodName inVals =
      some { rsp := [Value.zero,
               Value.errV ("Invalid triple client serializerType = "
                 ++ t.opt.SerializerType)]
             logged := ["Invalid triple client serializerType = "
                 ++ t.opt.SerializerType]
             networkCalls := [] } := by
  unfold TripleClient.Invoke
  rw [if_neg h1, if_neg h2]

/-- Witness for C3: a client configured with serializer type "json"
fails deterministically with no network call. -/
theorem invoke_unknown_serializer_fails_witness :
    wBadClient.Invoke "SayHello" [] =
      some { rsp := [Value.zero,
               Value.errV ("Invalid triple client serializerType = "
                 ++ wBadClient.opt.SerializerType)]
             logged := ["Invalid triple client serializerType = "
                 ++ wBadClient.opt.SerializerType]
             networkCalls := [] } :=
  invoke_unknown_serializer_fails wBadClient "SayHello" []
    (by decide) (by decide)

/-- Claim C4: a receive that reads the nil-buffer sentinel fails with the
stream-closed error; a receive that reads a data buffer de-frames it via
the package handler and returns exactly the serializer's unmarshalling
outcome, so a deserialization failure is propagated to the caller. -/
theorem recvMsg_closed_or_deserialize (ss : BaseUserStream)
    (buf : RecvBuf) (rest : List RecvBuf)
    (hq : ss.stream.recvQueue = buf :: rest) :
    (buf = RecvBuf.closed →
      ss.RecvMsg = some (Except.error "user stream closed!",
        ss.withRecvQueue rest))
    ∧ (∀ bs, buf = RecvBuf.data bs →
      ss.RecvMsg = some
        (ss.serilizer.unmarshalResponse (ss.pkgHandler.frame2PkgData bs).1,
         ss.withRecvQueue rest)) := by
  constructor
  · rintro rfl
    unfold BaseUserStream.RecvMsg
    rw [hq]
  · rintro bs rfl
    unfold BaseUserStream.RecvMsg
    rw [hq]
    cases hu : ss.serilizer.unmarshalResponse (ss.pkgHandler.frame2PkgData bs).1 with
    | error e => simp [hu]
    | ok v => simp [hu]

/-- Witness for C4: on a concrete adapter a received data buffer whose
payload fails deserialization surfaces the deserialization error. -/
theorem recvMsg_closed_or_deserialize_witness :
    wRecvSS.RecvMsg = some
      (wRecvSS.serilizer.unmarshalResponse
        (wRecvSS.pkgHandler.frame2PkgData [0]).1,
       wRecvSS.withRecvQueue []) :=
  (recvMsg_closed_or_deserialize wRecvSS (RecvBuf.data [0]) [] rfl).2 [0] rfl

/-- Claim C5: sendMessage returns an error exactly when marshalling
fails, in which case the error is returned and logged and the adapter
(hence the stream) is unchanged; on marshalling success it appends
exactly one data frame, built by the package handler, to the send path
and returns no error. -/
theorem sendMsg_err_iff_marshal_fails (ss : BaseUserStream) (m : Value) :
    (∀ e, ss.serilizer.marshalRequest m = Except.error e →
      ss.SendMsg m = (some e, ["sen msg error with msg = "], ss))
    ∧ (∀ d, ss.serilizer.marshalRequest m = Except.ok d →
      ss.SendMsg m = (none, [],
        { ss with stream := { ss.stream with
            sendQueue := ss.stream.sendQueue
              ++ [(ss.pkgHandler.pkg2FrameData d, MsgType.dataMsgType)] } })) := by
  constructor
  · intro e he
    unfold BaseUserStream.SendMsg
    rw [he]
  · intro d hd
    unfold BaseUserStream.SendMsg
    rw [hd]

/-- Witness for C5: on a concrete adapter a message that fails to
marshal is logged and returned as an error with the stream untouched,
and a message that marshals is framed and enqueued as one data frame. -/
theorem sendMsg_err_iff_marshal_fails_witness :
    wSendSS.SendMsg Value.zero
      = (some "marshal boom", ["sen msg error with msg = "], wSendSS)
    ∧ wSendSS.SendMsg (Value.obj "x") = (none, [],
        { wSendSS with stream := { wSendSS.stream with
            sendQueue := wSendSS.stream.sendQueue
              ++ [(wSendSS.pkgHandler.pkg2FrameData [7], MsgType.dataMsgType)] } }) :=
  ⟨(sendMsg_err_iff_marshal_fails wSendSS Value.zero).1 "marshal boom" rfl,
   (sendMsg_err_iff_marshal_fails wSendSS (Value.obj "x")).2 [7] rfl⟩

/-- Claim C6: validating the all-unset Option yields the default
timeout, buffer size, loopback address, the protocol "tri", the
protobuf serializer type, and a non-null logger. -/
theorem validate_zero_option_defaults :
    zeroOption.Validate.Timeout = DefaultTimeout
    ∧ zeroOption.Validate.BufferSize = DefaultHttp2ControllerReadBufferSize
    ∧ zeroOption.Validate.Location = DefaultListeningAddress
    ∧ zeroOption.Validate.Protocol = "tri"
    ∧ zeroOption.Validate.SerializerType = PBSerializerName
    ∧ zeroOption.Validate.Logger.isSome = true :=
  ⟨rfl, rfl, rfl, rfl, rfl, rfl⟩

/-- Claim C7: every metadata operation on the stream adapters —
SetHeader, SendHeader and SetTrailer on the base adapter, Header,
Trailer and CloseSend on the client-facing variant — is a no-op
returning nil/empty success values, so no metadata propagates. -/
theorem metadata_ops_are_noops (ss : BaseUserStream)
    (cs : ClientUserStream) (md : MD) :
    ss.SetHeader md = (ss, none)
    ∧ ss.SendHeader md = (ss, none)
    ∧ ss.SetTrailer md = ss
    ∧ cs.Header = (none, none)
    ∧ cs.Trailer = none
    ∧ cs.CloseSend = (cs, none) :=
  ⟨rfl, rfl, rfl, rfl, rfl, rfl⟩

/-- Each defaulting step touches exactly one field: timeout. -/
theorem validateTimeout_eq (o : ConfigOption) :
    o.validateTimeout
      = { o with Timeout :=
            (if o.Timeout = 0 then DefaultTimeout else o.Timeout) } := by
  by_cases h : o.Timeout = 0 <;> simp [ConfigOption.validateTimeout, h]

/-- Each defaulting step touches exactly one field: buffer size. -/
theorem validateBufferSize_eq (o : ConfigOption) :
    o.validateBufferSize
      = { o with BufferSize :=
            (if o.BufferSize = 0 then DefaultHttp2ControllerReadBufferSize
             else o.BufferSize) } := by
  by_cases h : o.BufferSize = 0 <;> simp [ConfigOption.validateBufferSize, h]

/-- Each defaulting step touches exactly one field: location. -/
theorem validateLocation_eq (o : ConfigOption) :
    o.validateLocation
      = { o with Location :=
            (if o.Location = "" then DefaultListeningAddress
             else o.Location) } := by
  by_cases h : o.Location = "" <;> simp [ConfigOption.validateLocation, h]

/-- Each defaulting step touches exactly one field: logger. -/
theorem validateLogger_eq (o : ConfigOption) :
    o.validateLogger
      = { o with Logger :=
            (if o.Logger = none then some GetDefaultLogger
             else o.Logger) } := by
  by_cases h : o.Logger = none <;> simp [ConfigOption.validateLogger, h]

/-- Each defaulting step touches exactly one field: protocol. -/
theorem validateProtocol_eq (o : ConfigOption) :
    o.validateProtocol
      = { o with Protocol :=
            (if o.Protocol = "" then TRIPLE else o.Protocol) } := by
  by_cases h : o.Protocol = "" <;> simp [ConfigOption.validateProtocol, h]

/-- Each defaulting step touches exactly one field: serializer type. -/
theorem validateSerializerType_eq (o : ConfigOption) :
    o.validateSerializerType
      = { o with SerializerType :=
            (if o.SerializerType = "" then PBSerializerName
             else o.SerializerType) } := by
  by_cases h : o.SerializerType = "" <;> simp [ConfigOption.validateSerializerType, h]

/-- Validate acts independently on each field: each defaulted field gets
its default exactly when it was zero-valued, and the header metadata
fields pass through. -/
theorem validate_eq (o : ConfigOption) :
    o.Validate =
      { Timeout := (if o.Timeout = 0 then DefaultTimeout else o.Timeout)
        BufferSize := (if o.BufferSize = 0 then
          DefaultHttp2ControllerReadBufferSize else o.BufferSize)
        Location := (if o.Location = "" then
          DefaultListeningAddress else o.Location)
        Protocol := (if o.Protocol = "" then TRIPLE else o.Protocol)
        SerializerType := (if o.SerializerType = "" then
          PBSerializerName else o.SerializerType)
        HeaderGroup := o.HeaderGroup
        HeaderAppVersion := o.HeaderAppVersion
        Logger := (if o.Logger = none then
          some GetDefaultLogger else o.Logger) } := by
  simp only [ConfigOption.Validate, validateTimeout_eq, validateBufferSize_eq,
    validateLocation_eq, validateLogger_eq, validateProtocol_eq,
    validateSerializerType_eq]

/-- Claim C8: Validate never assigns HeaderGroup or HeaderAppVersion:
both fields pass through verbatim for every Option. -/
theorem validate_preserves_header_fields (o : ConfigOption) :
    o.Validate.HeaderGroup = o.HeaderGroup
    ∧ o.Validate.HeaderAppVersion = o.HeaderAppVersion := by
  rw [validate_eq]
  exact ⟨rfl, rfl⟩

/-- Claim C9: on a received data buffer, the de-framing error component
is discarded: even when the package handler reports a de-framing error,
RecvMsg proceeds to deserialize the returned bytes and surfaces only
the unmarshalling outcome. -/
theorem recvMsg_discards_deframe_error (ss : BaseUserStream)
    (bs : List Nat) (rest : List RecvBuf) (ferr : String)
    (hq : ss.stream.recvQueue = RecvBuf.data bs :: rest)
    (_hf : (ss.pkgHandler.frame2PkgData bs).2 = some ferr) :
    ss.RecvMsg = some
      (ss.serilizer.unmarshalResponse (ss.pkgHandler.frame2PkgData bs).1,
       ss.withRecvQueue rest) := by
  unfold BaseUserStream.RecvMsg
  rw [hq]
  cases hu : ss.serilizer.unmarshalResponse (ss.pkgHandler.frame2PkgData bs).1 with
  | error e => simp [hu]
  | ok v => simp [hu]

/-- Witness for C9: a concrete adapter whose de-framing reports an error
still deserializes the de-framed bytes and succeeds. -/
theorem recvMsg_discards_deframe_error_witness :
    wRecvSS2.RecvMsg = some
      (wRecvSS2.serilizer.unmarshalResponse
        (wRecvSS2.pkgHandler.frame2PkgData [0, 5]).1,
       wRecvSS2.withRecvQueue []) :=
  recvMsg_discards_deframe_error wRecvSS2 [0, 5] [] "frame error" rfl rfl

/-- Validate leaves every defaulted field non-zero-valued. -/
theorem validate_filled (o : ConfigOption) : o.Validate.Filled := by
  rw [validate_eq]
  simp only [ConfigOption.Filled]
  refine ⟨?_, ?_, ?_, ?_, ?_, ?_⟩ <;>
    (split_ifs <;> first | assumption | decide)

/-- Validate is the identity on options whose defaulted fields are all
non-zero-valued. -/
theorem validate_id_of_filled (o : ConfigOption) (h : o.Filled) :
    o.Validate = o := by
  obtain ⟨h1, h2, h3, h4, h5, h6⟩ := h
  rw [validate_eq, if_neg h1, if_neg h2, if_neg h3, if_neg h4, if_neg h5,
    if_neg h6]

/-- Claim C10: Validate is idempotent — validating twice yields the same
Option as validating once, because Validate only fills zero-valued
fields and every value it writes is non-zero. -/
theorem validate_idempotent (o : ConfigOption) :
    o.Validate.Validate = o.Validate :=
  validate_id_of_filled o.Validate (validate_filled o)

end Triple
